import Mathlib

/-!
Shallow embedding of `src/api/youtube-proxy.js` (content-mixer-backend).

The file models the three pieces of the source:

* `extractVideoId` — the regex-based ID extractor (two patterns, tried in
  order: four URL shapes with a `[^&\n?#]+` capture group, then an anchored
  bare 11-character `[a-zA-Z0-9_-]{11}` match);
* `getVideoMetadata` — the response handling of the upstream fetch.  The
  network call itself is external: the embedding takes the upstream
  `UpstreamResponse` (status, status text and parsed JSON data) as an input
  and reproduces the status checks, the `items` check and the field mapping,
  including JavaScript `parseInt` semantics and the falsy-guard `x || 0`;
* `handler` — the orchestration: method dispatch, body validation,
  credential check, the fetch call, the success envelope and the catch-all
  error envelope.  Thrown JavaScript errors are modelled with `Except`;
  `TypeError`s raised by property access on `undefined` are modelled at the
  places the source performs an unguarded access.

Response bodies are modelled as the JavaScript object literals handed to
`res.json` (an ordered list of key/value pairs), so that "exactly these
fields" claims are directly expressible.
-/

namespace YoutubeProxy

/-! ## ID extractor (`extractVideoId`, youtube-proxy.js lines 2-15) -/

/-- Characters excluded by the capture class `[^&\n?#]` of the URL pattern. -/
def stopChar (c : Char) : Bool :=
  c = '&' || c = '\n' || c = '?' || c = '#'

/-- The character class `[a-zA-Z0-9_-]` of the bare-ID pattern. -/
def idChar (c : Char) : Bool :=
  c.isAlpha || c.isDigit || c = '_' || c = '-'

/-- First alternative of the URL pattern: `youtube\.com\/watch\?v=`. -/
def pat1 : List Char :=
  ['y','o','u','t','u','b','e','.','c','o','m','/','w','a','t','c','h','?','v','=']

/-- Second alternative of the URL pattern: `youtu\.be\/`. -/
def pat2 : List Char :=
  ['y','o','u','t','u','.','b','e','/']

/-- Third alternative of the URL pattern: `youtube\.com\/embed\/`. -/
def pat3 : List Char :=
  ['y','o','u','t','u','b','e','.','c','o','m','/','e','m','b','e','d','/']

/-- Fourth alternative of the URL pattern: `youtube\.com\/v\/`. -/
def pat4 : List Char :=
  ['y','o','u','t','u','b','e','.','c','o','m','/','v','/']

/-- The four URL-shape alternatives, in the order the regex lists them. -/
def urlPats : List (List Char) := [pat1, pat2, pat3, pat4]

/-- `startsWith p cs` holds when the literal alternative `p` matches at the
head of `cs` (regex literal matching, character by character). -/
def startsWith : List Char → List Char → Bool
  | [], _ => true
  | _ :: _, [] => false
  | p :: ps, c :: cs => p == c && startsWith ps cs

/-- The capture `([^&\n?#]+)` taken after alternative `p`: the maximal run of
non-stop characters following the matched literal. -/
def capAfter (p cs : List Char) : List Char :=
  (cs.drop p.length).takeWhile (fun c => !stopChar c)

/-- Attempt of one alternative of the URL pattern at the current position:
the literal must match and the capture group `+` must consume at least one
character, otherwise this alternative fails here. -/
def tryPat (p cs : List Char) : Option (List Char) :=
  if startsWith p cs then
    if (capAfter p cs).isEmpty then none else some (capAfter p cs)
  else none

/-- One regex position: the four alternatives are tried in the order the
pattern lists them; the first that succeeds provides the capture. -/
def tryAt (cs : List Char) : Option (List Char) :=
  match tryPat pat1 cs with
  | some cap => some cap
  | none =>
    match tryPat pat2 cs with
    | some cap => some cap
    | none =>
      match tryPat pat3 cs with
      | some cap => some cap
      | none => tryPat pat4 cs

/-- Unanchored regex search for the URL pattern: positions are scanned left
to right and the first position with a successful alternative wins, exactly
as JavaScript `String.prototype.match` behaves for this pattern. -/
def findMatch1 : List Char → Option (List Char)
  | [] => tryAt []
  | c :: rest =>
    match tryAt (c :: rest) with
    | some cap => some cap
    | none => findMatch1 rest

/-- The anchored second pattern `^([a-zA-Z0-9_-]{11})$`. -/
def isBareId (cs : List Char) : Bool :=
  cs.length == 11 && cs.all idChar

/-- `extractVideoId` (youtube-proxy.js lines 2-15): try the URL pattern, then
the bare-ID pattern; return the capture of the first match, or `none`
("no match", JavaScript `null`). -/
def extractVideoId (url : String) : Option String :=
  match findMatch1 url.toList with
  | some cap => some (String.mk cap)
  | none => if isBareId url.toList then some url else none

/-! ## JavaScript numbers and `parseInt` -/

/-- A JavaScript number as produced by `parseInt`: an integer or `NaN`. -/
inductive JsNum where
  | int : Int → JsNum
  | nan : JsNum
deriving DecidableEq, Repr

/-- ASCII whitespace skipped by `parseInt` before parsing. -/
def jsWhitespace (c : Char) : Bool :=
  c = ' ' || c = '\t' || c = '\n' || c = '\r' || c = '\x0b' || c = '\x0c'

/-- Decimal digit test used by `parseInt` in radix 10. -/
def isDecDigit (c : Char) : Bool :=
  '0' ≤ c && c ≤ '9'

/-- Hexadecimal digit test used by `parseInt` after a `0x`/`0X` marker. -/
def isHexDigitChar (c : Char) : Bool :=
  isDecDigit c || ('a' ≤ c && c ≤ 'f') || ('A' ≤ c && c ≤ 'F')

/-- Numeric value of a (decimal or hexadecimal) digit character. -/
def digitVal (c : Char) : Nat :=
  if isDecDigit c then c.toNat - '0'.toNat
  else if 'a' ≤ c && c ≤ 'f' then c.toNat - 'a'.toNat + 10
  else c.toNat - 'A'.toNat + 10

/-- Value of a digit string in the given radix. -/
def digitsToNat (radix : Nat) (ds : List Char) : Nat :=
  ds.foldl (fun a c => a * radix + digitVal c) 0

/-- Hexadecimal tail of `parseInt` after a `0x`/`0X` marker: at least one hex
digit must follow, otherwise the result is `NaN` (`none`). -/
def hexTail (sign : Int) (t : List Char) : Option Int :=
  let ds := t.takeWhile isHexDigitChar
  if ds.isEmpty then none else some (sign * (digitsToNat 16 ds : Int))

/-- Decimal parse of `parseInt`: the maximal leading run of decimal digits;
`NaN` (`none`) when it is empty. -/
def decTail (sign : Int) (t : List Char) : Option Int :=
  let ds := t.takeWhile isDecDigit
  if ds.isEmpty then none else some (sign * (digitsToNat 10 ds : Int))

/-- `parseInt` after the optional sign: a `0x`/`0X` marker selects radix 16,
anything else is parsed as radix 10. -/
def jsParseIntAfterSign (sign : Int) : List Char → Option Int
  | '0' :: 'x' :: t => hexTail sign t
  | '0' :: 'X' :: t => hexTail sign t
  | cs => decTail sign cs

/-- JavaScript `parseInt(s)` with no radix argument: skip leading whitespace,
read an optional sign, then parse the longest valid digit run; `none` models
`NaN`. -/
def jsParseInt (s : String) : Option Int :=
  match s.toList.dropWhile jsWhitespace with
  | '-' :: t => jsParseIntAfterSign (-1) t
  | '+' :: t => jsParseIntAfterSign 1 t
  | t => jsParseIntAfterSign 1 t

/-- The source expression `parseInt(field || 0)` applied to a statistics
field that is either absent (`undefined`) or a string: a falsy field
(absent, or the empty string) falls back to the number `0`, whose parse is
`0`; a truthy string is handed to `parseInt` and may produce `NaN`. -/
def parseStatField : Option String → JsNum
  | none => .int 0
  | some s =>
    if s = "" then .int 0
    else
      match jsParseInt s with
      | some n => .int n
      | none => .nan

/-! ## Upstream response data model -/

/-- One thumbnail variant object (`{url: ...}`). -/
structure Thumb where
  url : String
deriving DecidableEq, Repr

/-- The `snippet.thumbnails` object; each variant may be absent. -/
structure Thumbnails where
  high : Option Thumb
  medium : Option Thumb
deriving DecidableEq, Repr

/-- The `snippet` object of an upstream item. -/
structure Snippet where
  title : String
  description : String
  channelTitle : String
  channelId : String
  publishedAt : String
  thumbnails : Option Thumbnails
  tags : Option (List String)
deriving DecidableEq, Repr

/-- The `statistics` object: the API serialises counts as strings, and a
field may be absent. -/
structure Statistics where
  viewCount : Option String
  likeCount : Option String
deriving DecidableEq, Repr

/-- The `contentDetails` object. -/
structure ContentDetails where
  duration : String
deriving DecidableEq, Repr

/-- One element of the upstream `items` array; any of its sub-objects may be
absent (`undefined` in JavaScript). -/
structure VideoItem where
  snippet : Option Snippet
  contentDetails : Option ContentDetails
  statistics : Option Statistics
deriving DecidableEq, Repr

/-- The parsed upstream JSON body; `items` may be absent. -/
structure UpstreamData where
  items : Option (List VideoItem)
deriving DecidableEq, Repr

/-- What the upstream `fetch` resolves to: HTTP status, status text and the
parsed JSON body. -/
structure UpstreamResponse where
  status : Nat
  statusText : String
  data : UpstreamData
deriving DecidableEq, Repr

/-- `Response.ok` of the Fetch API: status in the inclusive range 200-299. -/
def respOk (r : UpstreamResponse) : Bool :=
  200 ≤ r.status && r.status ≤ 299

/-! ## Thrown errors -/

/-- A thrown JavaScript error: `new Error(msg)` from the source's explicit
`throw` statements, or a `TypeError` raised by property access on
`undefined`. -/
inductive JsError where
  | thrown : String → JsError
  | typeError : String → JsError
deriving DecidableEq, Repr

/-- The `.message` property of a thrown error. -/
def JsError.message : JsError → String
  | .thrown m => m
  | .typeError m => m

/-- The `.toString()` of a thrown error, as interpolated into `details`. -/
def jsErrorToString : JsError → String
  | .thrown m => "Error: " ++ m
  | .typeError m => "TypeError: " ++ m

/-! ## `getVideoMetadata` (youtube-proxy.js lines 18-60) -/

/-- The flat record the fetcher builds from an upstream success payload. -/
structure VideoMetadata where
  title : String
  description : String
  channelTitle : String
  channelId : String
  publishedAt : String
  thumbnail : Option String
  duration : String
  viewCount : JsNum
  likeCount : JsNum
  tags : List String
deriving DecidableEq, Repr

/-- JavaScript falsy test on a string-or-undefined value (used by `||`). -/
def undefFalsy : Option String → Bool
  | none => true
  | some s => s = ""

/-- JavaScript `a || b` on string-or-undefined values:
`b` when `a` is falsy, else `a`. -/
def jsOrStr (a b : Option String) : Option String :=
  if undefFalsy a then b else a

/-- `getVideoMetadata` (youtube-proxy.js lines 18-60), as a function of the
upstream response (the network call is external to the embedding).  Status
checks, the `items` emptiness check and the field mapping follow the source
line by line; the unguarded accesses `snippet.title`,
`snippet.thumbnails.high`, `video.contentDetails.duration` and
`statistics.viewCount` raise a `TypeError` when the object is `undefined`,
in the evaluation order of the object literal.  The `try`/`catch` in the
source only logs and rethrows, so it adds nothing here. -/
def getVideoMetadata (resp : UpstreamResponse) : Except JsError VideoMetadata :=
  if !respOk resp then
    if resp.status = 403 then .error (.thrown "API quota exceeded or invalid API key")
    else if resp.status = 404 then .error (.thrown "Video not found")
    else .error (.thrown ("HTTP " ++ toString resp.status ++ ": " ++ resp.statusText))
  else
    match resp.data.items with
    | none => .error (.thrown "Video not found or is private")
    | some [] => .error (.thrown "Video not found or is private")
    | some (video :: _) =>
      match video.snippet with
      | none => .error (.typeError "Cannot read properties of undefined (reading 'title')")
      | some snippet =>
        match snippet.thumbnails with
        | none => .error (.typeError "Cannot read properties of undefined (reading 'high')")
        | some th =>
          match video.contentDetails with
          | none => .error (.typeError "Cannot read properties of undefined (reading 'duration')")
          | some cd =>
            match video.statistics with
            | none => .error (.typeError "Cannot read properties of undefined (reading 'viewCount')")
            | some st =>
              .ok {
                title := snippet.title
                description := snippet.description
                channelTitle := snippet.channelTitle
                channelId := snippet.channelId
                publishedAt := snippet.publishedAt
                thumbnail := jsOrStr (th.high.map (·.url)) (th.medium.map (·.url))
                duration := cd.duration
                viewCount := parseStatField st.viewCount
                likeCount := parseStatField st.likeCount
                tags := snippet.tags.getD [] }

/-! ## The handler (youtube-proxy.js lines 63-143) -/

/-- A JavaScript value as it can appear in the request body's `url` field. -/
inductive JsVal where
  | undef
  | nullv
  | bool : Bool → JsVal
  | num : JsNum → JsVal
  | str : String → JsVal
deriving DecidableEq, Repr

/-- JavaScript falsy test (`!x`). -/
def JsVal.falsy : JsVal → Bool
  | .undef => true
  | .nullv => true
  | .bool b => !b
  | .num (.int n) => n == 0
  | .num .nan => true
  | .str s => s == ""

/-- A JSON-serialisable value of the response object. -/
inductive JValue where
  | undef
  | bool : Bool → JValue
  | str : String → JValue
  | num : JsNum → JValue
  | strArr : List String → JValue
deriving DecidableEq, Repr

/-- A response body: empty (`res.end()`) or the object literal handed to
`res.json`, kept as an ordered field list so "exactly these fields" is
expressible. -/
inductive RespBody where
  | empty
  | json : List (String × JValue) → RespBody
deriving DecidableEq, Repr

/-- Outcome of one handler invocation: HTTP status, response body, and
whether the metadata fetcher was invoked. -/
structure HandlerResult where
  status : Nat
  body : RespBody
  fetchCalled : Bool
deriving DecidableEq, Repr

/-- The two-field error envelope `{success: false, error: msg}`. -/
def errBody (msg : String) : RespBody :=
  .json [("success", .bool false), ("error", .str msg)]

/-- The catch-block envelope `{success: false, error, details}`. -/
def errBodyDetails (msg details : String) : RespBody :=
  .json [("success", .bool false), ("error", .str msg), ("details", .str details)]

/-- The catch block's `error.message || 'Internal server error'`. -/
def messageOr (e : JsError) : String :=
  if e.message = "" then "Internal server error" else e.message

/-- The success envelope of the handler: spread of the metadata record
between the echo fields and `extractedAt`. -/
def successBody (vid u : String) (m : VideoMetadata) (now : String) : RespBody :=
  .json [("success", .bool true),
         ("videoId", .str vid),
         ("url", .str u),
         ("contentType", .str "youtube"),
         ("title", .str m.title),
         ("description", .str m.description),
         ("channelTitle", .str m.channelTitle),
         ("channelId", .str m.channelId),
         ("publishedAt", .str m.publishedAt),
         ("thumbnail", match m.thumbnail with | some t => .str t | none => .undef),
         ("duration", .str m.duration),
         ("viewCount", .num m.viewCount),
         ("likeCount", .num m.likeCount),
         ("tags", .strArr m.tags),
         ("extractedAt", .str now)]

/-- The inbound request: method, and the `url` field of the parsed JSON body
(`JsVal.undef` when the field is absent). -/
structure Request where
  method : String
  url : JsVal
deriving DecidableEq, Repr

/-- Falsy test on the environment credential (`!YOUTUBE_API_KEY`): absent or
the empty string. -/
def keyFalsy : Option String → Bool
  | none => true
  | some k => k == ""

/-- The default-exported `handler` (youtube-proxy.js lines 63-143), as a
function of the request, the environment credential, the upstream response
the fetch would resolve to, and the `extractedAt` timestamp.  CORS header
plumbing and `console` logging have no observable effect on the result and
are not modelled.  A truthy non-string `url` makes `url.match` throw a
`TypeError`, which the catch block converts like every other error. -/
def handler (req : Request) (apiKey : Option String) (upstream : UpstreamResponse)
    (now : String) : HandlerResult :=
  if req.method = "OPTIONS" then ⟨200, .empty, false⟩
  else if req.method ≠ "POST" then ⟨405, errBody "Method not allowed. Use POST.", false⟩
  else if req.url.falsy then ⟨400, errBody "URL parameter is required", false⟩
  else
    match req.url with
    | .str u =>
      match extractVideoId u with
      | none => ⟨400, errBody "Invalid YouTube URL format", false⟩
      | some vid =>
        if keyFalsy apiKey then
          ⟨500, errBody "Server configuration error - API key missing", false⟩
        else
          match getVideoMetadata upstream with
          | .error e => ⟨500, errBodyDetails (messageOr e) (jsErrorToString e), true⟩
          | .ok m => ⟨200, successBody vid u m now, true⟩
    | _ =>
      ⟨500, errBodyDetails (messageOr (.typeError "url.match is not a function"))
              (jsErrorToString (.typeError "url.match is not a function")), false⟩

/-- The `error` field of a response body, when it is a string. -/
def errorText : RespBody → Option String
  | .empty => none
  | .json fields =>
    match fields.lookup "error" with
    | some (.str s) => some s
    | _ => none

/-- Substring search over character lists: `sub` occurs at some position. -/
def containsSubChars : List Char → List Char → Bool
  | [], sub => sub.isEmpty
  | c :: rest, sub => startsWith sub (c :: rest) || containsSubChars rest sub

/-- Substring test (used to state "error text containing ..."). -/
def containsSub (s sub : String) : Bool :=
  containsSubChars s.toList sub.toList

/-! ## Spec-side characterisation of the URL pattern -/

/-- Declarative statement that the URL pattern matches at position `i` of
`cs` with alternative `p` and capture `cap`: `p` is one of the four
recognised URL shapes, it occurs at `i`, and `cap` is the nonempty maximal
run of characters after it up to the first `&`, newline, `?` or `#`. -/
def capturesAt (cs : List Char) (i : Nat) (p cap : List Char) : Prop :=
  p ∈ urlPats ∧ startsWith p (cs.drop i) = true ∧
    cap = capAfter p (cs.drop i) ∧ cap ≠ []

instance (cs : List Char) (i : Nat) (p cap : List Char) :
    Decidable (capturesAt cs i p cap) := by
  unfold capturesAt; infer_instance

/-- Boolean test that some recognised URL shape produces a (nonempty)
capture at position `i` of `cs`. -/
def anyCaptureAt (cs : List Char) (i : Nat) : Bool :=
  urlPats.any fun p => startsWith p (cs.drop i) && !(capAfter p (cs.drop i)).isEmpty

/-! ## Lemmas about the URL-pattern matcher -/

theorem startsWith_take (p : List Char) :
    ∀ cs, startsWith p cs = true ↔ cs.take p.length = p := by
  induction p with
  | nil => intro cs; simp [startsWith]
  | cons a ps ih =>
    intro cs
    cases cs with
    | nil => simp [startsWith]
    | cons c rest =>
      simp only [startsWith, Bool.and_eq_true, beq_iff_eq, List.length_cons,
        List.take_succ_cons, List.cons.injEq, ih]
      constructor
      · rintro ⟨h1, h2⟩; exact ⟨h1.symm, h2⟩
      · rintro ⟨h1, h2⟩; exact ⟨h1.symm, h2⟩

theorem not_startsWith_of_take_ne (p q xs : List Char)
    (hne : p.take (min p.length q.length) ≠ q.take (min p.length q.length))
    (hq : startsWith q xs = true) : startsWith p xs = false := by
  cases hp : startsWith p xs with
  | false => rfl
  | true =>
    exfalso
    apply hne
    have hp' := (startsWith_take p xs).1 hp
    have hq' := (startsWith_take q xs).1 hq
    have e1 : p.take (min p.length q.length) = xs.take (min p.length q.length) := by
      have h : (xs.take p.length).take (min p.length q.length)
          = xs.take (min p.length q.length) := by
        rw [List.take_take]
        congr 1
        omega
      rw [hp'] at h
      exact h
    have e2 : q.take (min p.length q.length) = xs.take (min p.length q.length) := by
      have h : (xs.take q.length).take (min p.length q.length)
          = xs.take (min p.length q.length) := by
        rw [List.take_take]
        congr 1
        omega
      rw [hq'] at h
      exact h
    rw [e1, e2]

theorem tryPat_some_iff (p cs cap : List Char) :
    tryPat p cs = some cap ↔
      startsWith p cs = true ∧ cap = capAfter p cs ∧ cap ≠ [] := by
  unfold tryPat
  split
  · next hs =>
    split
    · next he =>
      rw [List.isEmpty_iff] at he
      constructor
      · intro h; cases h
      · rintro ⟨-, rfl, h3⟩; exact absurd he h3
    · next he =>
      rw [List.isEmpty_iff] at he
      constructor
      · intro h
        have hc : capAfter p cs = cap := by injection h
        subst hc
        exact ⟨hs, rfl, he⟩
      · rintro ⟨-, rfl, -⟩; rfl
  · next hs =>
    simp only [Bool.not_eq_true] at hs
    simp [hs]

theorem tryPat_none_of_not_starts (p cs : List Char) (h : startsWith p cs = false) :
    tryPat p cs = none := by
  simp [tryPat, h]

/-- No two of the four URL-shape alternatives can match at the same
position; hence at any position the successful alternative is unique and
the alternation order is irrelevant. -/
theorem tryAt_eq_some_of (p cs cap : List Char) (hp : p ∈ urlPats)
    (h : tryPat p cs = some cap) : tryAt cs = some cap := by
  have hs : startsWith p cs = true := ((tryPat_some_iff p cs cap).1 h).1
  simp only [urlPats, List.mem_cons, List.not_mem_nil, or_false] at hp
  rcases hp with rfl | rfl | rfl | rfl
  · simp [tryAt, h]
  · have h1 : startsWith pat1 cs = false :=
      not_startsWith_of_take_ne pat1 pat2 cs (by decide) hs
    simp [tryAt, tryPat_none_of_not_starts _ _ h1, h]
  · have h1 : startsWith pat1 cs = false :=
      not_startsWith_of_take_ne pat1 pat3 cs (by decide) hs
    have h2 : startsWith pat2 cs = false :=
      not_startsWith_of_take_ne pat2 pat3 cs (by decide) hs
    simp [tryAt, tryPat_none_of_not_starts _ _ h1, tryPat_none_of_not_starts _ _ h2, h]
  · have h1 : startsWith pat1 cs = false :=
      not_startsWith_of_take_ne pat1 pat4 cs (by decide) hs
    have h2 : startsWith pat2 cs = false :=
      not_startsWith_of_take_ne pat2 pat4 cs (by decide) hs
    have h3 : startsWith pat3 cs = false :=
      not_startsWith_of_take_ne pat3 pat4 cs (by decide) hs
    simp [tryAt, tryPat_none_of_not_starts _ _ h1, tryPat_none_of_not_starts _ _ h2,
      tryPat_none_of_not_starts _ _ h3, h]

theorem tryAt_some_exists (cs cap : List Char) (h : tryAt cs = some cap) :
    ∃ p, p ∈ urlPats ∧ tryPat p cs = some cap := by
  unfold tryAt at h
  split at h
  · next heq => exact ⟨pat1, by simp [urlPats], by rw [heq, h]⟩
  · next =>
    split at h
    · next heq => exact ⟨pat2, by simp [urlPats], by rw [heq, h]⟩
    · next =>
      split at h
      · next heq => exact ⟨pat3, by simp [urlPats], by rw [heq, h]⟩
      · next => exact ⟨pat4, by simp [urlPats], h⟩

theorem tryAt_none_of_any_false (cs : List Char) (i : Nat)
    (h : anyCaptureAt cs i = false) : tryAt (cs.drop i) = none := by
  cases htry : tryAt (cs.drop i) with
  | none => rfl
  | some cap =>
    exfalso
    obtain ⟨p, hp, hpat⟩ := tryAt_some_exists _ _ htry
    obtain ⟨h1, h2, h3⟩ := (tryPat_some_iff p _ cap).1 hpat
    have hany : anyCaptureAt cs i = true := by
      unfold anyCaptureAt
      rw [List.any_eq_true]
      refine ⟨p, hp, ?_⟩
      rw [h1]
      have : (capAfter p (cs.drop i)).isEmpty = false := by
        rw [Bool.eq_false_iff, Ne, List.isEmpty_iff]
        rw [h2] at h3
        exact h3
      simp [this]
    rw [hany] at h
    cases h

theorem findMatch1_eq_of (cs : List Char) (i : Nat) (cap : List Char)
    (h : tryAt (cs.drop i) = some cap)
    (hmin : ∀ j, j < i → tryAt (cs.drop j) = none) :
    findMatch1 cs = some cap := by
  induction cs generalizing i with
  | nil =>
    rw [List.drop_nil] at h
    simpa [findMatch1] using h
  | cons c rest ih =>
    cases i with
    | zero =>
      rw [List.drop_zero] at h
      simp [findMatch1, h]
    | succ n =>
      have h0 : tryAt (c :: rest) = none := by
        have := hmin 0 (Nat.succ_pos _)
        simpa using this
      have hrec : findMatch1 rest = some cap := by
        refine ih n ?_ ?_
        · simpa [List.drop_succ_cons] using h
        · intro j hj
          have := hmin (j + 1) (by omega)
          simpa [List.drop_succ_cons] using this
      simp [findMatch1, h0, hrec]

theorem findMatch1_none (cs : List Char) (h : ∀ i, tryAt (cs.drop i) = none) :
    findMatch1 cs = none := by
  induction cs with
  | nil => simpa [findMatch1] using h 0
  | cons c rest ih =>
    have h0 : tryAt (c :: rest) = none := by simpa using h 0
    have hrec : findMatch1 rest = none :=
      ih fun i => by simpa [List.drop_succ_cons] using h (i + 1)
    simp [findMatch1, h0, hrec]

/-! ## Claim C2 -/

/-- Claim C2, as stated, is false: the capture class `[^&\n?#]+` imposes no
length constraint, so a recognised URL shape can yield a captured segment
that is not 11 characters long.  At the input `https://youtu.be/abc` the
URL pattern matches (at position 8, shape `youtu.be/`) and `extractVideoId`
returns the 3-character capture `abc`. -/
theorem C2_counterexample :
    capturesAt "https://youtu.be/abc".toList 8 pat2 "abc".toList ∧
    extractVideoId "https://youtu.be/abc" = some "abc" ∧
    ¬("abc".length = 11) :=
  ⟨by decide, by decide, by decide⟩

/-- Claim C2 (amended): for every input string in which a recognised URL
shape (`watch?v=`, `youtu.be/`, `embed/`, `v/`) matches — at the leftmost
position admitting a nonempty capture — `extractVideoId` returns exactly
the captured segment, of whatever length, truncated at the first `&`,
newline, `?` or `#`. -/
theorem C2_amended (url : String) (i : Nat) (p cap : List Char)
    (hc : capturesAt url.toList i p cap)
    (hmin : ∀ j, j < i → anyCaptureAt url.toList j = false) :
    extractVideoId url = some (String.mk cap) := by
  obtain ⟨hp, hs, hcap, hne⟩ := hc
  have htry : tryAt (url.toList.drop i) = some cap :=
    tryAt_eq_some_of p _ cap hp ((tryPat_some_iff p _ cap).2 ⟨hs, hcap, hne⟩)
  have hfind : findMatch1 url.data = some cap :=
    findMatch1_eq_of _ i cap htry fun j hj => tryAt_none_of_any_false _ _ (hmin j hj)
  simp [extractVideoId, hfind]

/-- Witness for `C2_amended` at a full watch URL with a query-string tail:
the capture stops at the `&`. -/
theorem C2_amended_witness :
    extractVideoId "https://www.youtube.com/watch?v=dQw4w9WgXcQ&t=1s" =
      some "dQw4w9WgXcQ" := by
  have h := C2_amended "https://www.youtube.com/watch?v=dQw4w9WgXcQ&t=1s" 12 pat1
    "dQw4w9WgXcQ".toList (by decide) (by decide)
  exact h

/-! ## Claim C7 -/

/-- Claim C7: for every input string on which no recognised URL shape
produces a capture at any position, and which is not exactly 11 characters
of `[a-zA-Z0-9_-]`, `extractVideoId` returns `none` ("no match"). -/
theorem C7_no_match (s : String)
    (h1 : ∀ i, i ≤ s.toList.length → anyCaptureAt s.toList i = false)
    (h2 : ¬(s.toList.length = 11 ∧ ∀ c ∈ s.toList, idChar c = true)) :
    extractVideoId s = none := by
  have hall : ∀ i, tryAt (s.toList.drop i) = none := by
    intro i
    by_cases hi : i ≤ s.toList.length
    · exact tryAt_none_of_any_false _ _ (h1 i hi)
    · rw [List.drop_of_length_le (by omega)]
      rfl
  have hfind : findMatch1 s.data = none := findMatch1_none _ hall
  have hbare : isBareId s.data = false := by
    cases hb : isBareId s.toList with
    | false => exact hb
    | true =>
      exfalso
      apply h2
      unfold isBareId at hb
      simp only [Bool.and_eq_true, beq_iff_eq, List.all_eq_true] at hb
      exact hb
  simp [extractVideoId, hfind, hbare]

/-- Witness for `C7_no_match`: `hello world` is 11 characters long but the
space is outside `[a-zA-Z0-9_-]`, and no URL shape occurs in it. -/
theorem C7_no_match_witness : extractVideoId "hello world" = none :=
  C7_no_match "hello world" (by decide) (by decide)

/-! ## Handler reduction lemmas -/

theorem extractVideoId_empty : extractVideoId "" = none := rfl

theorem ne_empty_of_extract (u vid : String) (hext : extractVideoId u = some vid) :
    u ≠ "" := by
  intro h
  subst h
  rw [extractVideoId_empty] at hext
  cases hext

/-- A POST request with a truthy string URL whose extraction succeeds and a
truthy credential reaches the fetch; the result depends only on
`getVideoMetadata` of the upstream response. -/
theorem handler_fetch (u vid k : String) (up : UpstreamResponse) (now : String)
    (hext : extractVideoId u = some vid) (hk : k ≠ "") :
    handler ⟨"POST", .str u⟩ (some k) up now =
      match getVideoMetadata up with
      | .error e => ⟨500, errBodyDetails (messageOr e) (jsErrorToString e), true⟩
      | .ok m => ⟨200, successBody vid u m now, true⟩ := by
  have hu : u ≠ "" := ne_empty_of_extract u vid hext
  simp [handler, JsVal.falsy, keyFalsy, hext, hu, hk]

theorem getVideoMetadata_403 (stext : String) (d : UpstreamData) :
    getVideoMetadata ⟨403, stext, d⟩ =
      .error (.thrown "API quota exceeded or invalid API key") := rfl

theorem getVideoMetadata_404 (stext : String) (d : UpstreamData) :
    getVideoMetadata ⟨404, stext, d⟩ = .error (.thrown "Video not found") := rfl

theorem getVideoMetadata_noItems (stext : String) (items : Option (List VideoItem))
    (h : items = none ∨ items = some []) :
    getVideoMetadata ⟨200, stext, ⟨items⟩⟩ =
      .error (.thrown "Video not found or is private") := by
  rcases h with rfl | rfl <;> rfl

/-! ## Claim C1 -/

/-- Claim C1, as stated, is false: `parseInt(statistics.viewCount || 0)`
only defaults to `0` for a falsy field.  A present, truthy, non-numeric
string such as `"abc"` is passed to `parseInt`, which yields `NaN` — not
`0` and not a non-negative integer — while a parseable `likeCount` of the
same payload maps normally. -/
theorem C1_counterexample :
    (getVideoMetadata ⟨200, "OK", ⟨some
        [⟨some ⟨"t", "d", "ct", "ci", "pub", some ⟨some ⟨"hu"⟩, none⟩, none⟩,
          some ⟨"PT1M"⟩, some ⟨some "abc", some "7"⟩⟩]⟩⟩).map VideoMetadata.viewCount =
      Except.ok JsNum.nan ∧
    (getVideoMetadata ⟨200, "OK", ⟨some
        [⟨some ⟨"t", "d", "ct", "ci", "pub", some ⟨some ⟨"hu"⟩, none⟩, none⟩,
          some ⟨"PT1M"⟩, some ⟨some "abc", some "7"⟩⟩]⟩⟩).map VideoMetadata.likeCount =
      Except.ok (JsNum.int 7) ∧
    JsNum.nan ≠ JsNum.int 0 :=
  ⟨rfl, rfl, by decide⟩

/-- Claim C1 (amended): the counts default to 0 exactly for falsy fields:
for every upstream success payload whose first item is fully populated and
whose `viewCount`/`likeCount` statistics fields are absent or empty
strings, the record built by `getVideoMetadata` has
`viewCount = likeCount = 0`.  (For truthy non-numeric strings the value is
JavaScript `parseInt`, i.e. possibly `NaN` or negative.) -/
theorem C1_amended (sn : Snippet) (tn : Thumbnails) (cd : ContentDetails) (st : Statistics)
    (v : VideoItem) (rest : List VideoItem) (stext : String)
    (hsn : v.snippet = some sn) (htn : sn.thumbnails = some tn)
    (hcd : v.contentDetails = some cd) (hst : v.statistics = some st)
    (hv : st.viewCount = none ∨ st.viewCount = some "")
    (hl : st.likeCount = none ∨ st.likeCount = some "") :
    (getVideoMetadata ⟨200, stext, ⟨some (v :: rest)⟩⟩).map VideoMetadata.viewCount =
      Except.ok (JsNum.int 0) ∧
    (getVideoMetadata ⟨200, stext, ⟨some (v :: rest)⟩⟩).map VideoMetadata.likeCount =
      Except.ok (JsNum.int 0) := by
  have hview : parseStatField st.viewCount = JsNum.int 0 := by
    rcases hv with h | h <;> simp [parseStatField, h]
  have hlike : parseStatField st.likeCount = JsNum.int 0 := by
    rcases hl with h | h <;> simp [parseStatField, h]
  constructor <;>
    simp [getVideoMetadata, respOk, hsn, htn, hcd, hst, hview, hlike, Except.map]

/-- Witness for `C1_amended`: absent `viewCount`, empty-string `likeCount`. -/
theorem C1_amended_witness :
    (getVideoMetadata ⟨200, "OK", ⟨some
        [⟨some ⟨"t", "d", "ct", "ci", "pub", some ⟨none, none⟩, none⟩,
          some ⟨"PT1M"⟩, some ⟨none, some ""⟩⟩]⟩⟩).map VideoMetadata.viewCount =
      Except.ok (JsNum.int 0) ∧
    (getVideoMetadata ⟨200, "OK", ⟨some
        [⟨some ⟨"t", "d", "ct", "ci", "pub", some ⟨none, none⟩, none⟩,
          some ⟨"PT1M"⟩, some ⟨none, some ""⟩⟩]⟩⟩).map VideoMetadata.likeCount =
      Except.ok (JsNum.int 0) :=
  C1_amended ⟨"t", "d", "ct", "ci", "pub", some ⟨none, none⟩, none⟩ ⟨none, none⟩
    ⟨"PT1M"⟩ ⟨none, some ""⟩
    ⟨some ⟨"t", "d", "ct", "ci", "pub", some ⟨none, none⟩, none⟩, some ⟨"PT1M"⟩,
      some ⟨none, some ""⟩⟩ [] "OK" rfl rfl rfl rfl (Or.inl rfl) (Or.inr rfl)

/-! ## Claim C3 -/

/-- Claim C3, as stated, is false: a fetch failure (a step-6 failure) is
converted by the catch block, whose envelope carries a third `details`
field in addition to `success` and `error`. -/
theorem C3_counterexample :
    (handler ⟨"POST", .str "dQw4w9WgXcQ"⟩ (some "k") ⟨403, "Forbidden", ⟨none⟩⟩ "now").body =
      RespBody.json [("success", .bool false),
        ("error", .str "API quota exceeded or invalid API key"),
        ("details", .str "Error: API quota exceeded or invalid API key")] ∧
    (handler ⟨"POST", .str "dQw4w9WgXcQ"⟩ (some "k") ⟨403, "Forbidden", ⟨none⟩⟩ "now").body ≠
      errBody "API quota exceeded or invalid API key" :=
  ⟨by decide, by decide⟩

/-- Claim C3 (amended): failures from steps 3-5 (missing URL, unparseable
URL, missing credential) produce exactly the two-field body
`{success: false, error: message}`; a step-6 fetch failure produces the
catch-block body `{success: false, error: message, details: string}`,
which has the additional `details` field. -/
theorem C3_amended :
    (∀ key up now,
      (handler ⟨"POST", .undef⟩ key up now).body = errBody "URL parameter is required") ∧
    (∀ u key up now, u ≠ "" → extractVideoId u = none →
      (handler ⟨"POST", .str u⟩ key up now).body = errBody "Invalid YouTube URL format") ∧
    (∀ u vid key up now, extractVideoId u = some vid → keyFalsy key = true →
      (handler ⟨"POST", .str u⟩ key up now).body =
        errBody "Server configuration error - API key missing") ∧
    (∀ u vid k up now e, extractVideoId u = some vid → k ≠ "" →
      getVideoMetadata up = Except.error e →
      (handler ⟨"POST", .str u⟩ (some k) up now).body =
        errBodyDetails (messageOr e) (jsErrorToString e)) := by
  refine ⟨?_, ?_, ?_, ?_⟩
  · intro key up now
    simp [handler, JsVal.falsy]
  · intro u key up now hu hext
    simp [handler, JsVal.falsy, hu, hext]
  · intro u vid key up now hext hkey
    have hu : u ≠ "" := ne_empty_of_extract u vid hext
    simp [handler, JsVal.falsy, hu, hext, hkey]
  · intro u vid k up now e hext hk hup
    rw [handler_fetch u vid k up now hext hk, hup]

/-- Witness for `C3_amended` (fetch-failure part) at an upstream 404. -/
theorem C3_amended_witness :
    (handler ⟨"POST", .str "dQw4w9WgXcQ"⟩ (some "k") ⟨404, "NF", ⟨none⟩⟩ "now").body =
      errBodyDetails "Video not found" "Error: Video not found" :=
  C3_amended.2.2.2 "dQw4w9WgXcQ" "dQw4w9WgXcQ" "k" ⟨404, "NF", ⟨none⟩⟩ "now"
    (.thrown "Video not found") (by decide) (by decide) rfl

/-! ## Claim C4 -/

/-- Claim C4, as stated, is false: the 500 status is right but the error
text the source emits is `Server configuration error - API key missing`,
not exactly `Server configuration error`. -/
theorem C4_counterexample :
    handler ⟨"POST", .str "https://youtu.be/dQw4w9WgXcQ"⟩ none ⟨200, "OK", ⟨none⟩⟩ "t" =
      ⟨500, errBody "Server configuration error - API key missing", false⟩ ∧
    errBody "Server configuration error - API key missing" ≠
      errBody "Server configuration error" :=
  ⟨by decide, by decide⟩

/-- Claim C4 (amended): for every POST request with a valid URL and no
(or an empty) API credential in the environment, the handler responds 500
with body `{success: false, error: "Server configuration error - API key
missing"}` and never invokes the fetcher. -/
theorem C4_amended (u vid : String) (key : Option String) (up : UpstreamResponse)
    (now : String) (hext : extractVideoId u = some vid) (hkey : keyFalsy key = true) :
    handler ⟨"POST", .str u⟩ key up now =
      ⟨500, errBody "Server configuration error - API key missing", false⟩ := by
  have hu : u ≠ "" := ne_empty_of_extract u vid hext
  simp [handler, JsVal.falsy, hu, hext, hkey]

/-- Witness for `C4_amended` with a bare-ID URL and an absent credential. -/
theorem C4_amended_witness :
    handler ⟨"POST", .str "dQw4w9WgXcQ"⟩ none ⟨200, "OK", ⟨none⟩⟩ "t" =
      ⟨500, errBody "Server configuration error - API key missing", false⟩ :=
  C4_amended "dQw4w9WgXcQ" "dQw4w9WgXcQ" none ⟨200, "OK", ⟨none⟩⟩ "t" (by decide) rfl

/-! ## Claim C5 -/

/-- Claim C5: whenever the upstream responds 403 (so the request carried a
valid URL and a configured credential), the handler responds 500 and the
error text contains "quota" (and in fact also "invalid API key"). -/
theorem C5_quota_auth (u vid k stext now : String) (d : UpstreamData)
    (hext : extractVideoId u = some vid) (hk : k ≠ "") :
    (handler ⟨"POST", .str u⟩ (some k) ⟨403, stext, d⟩ now).status = 500 ∧
    errorText (handler ⟨"POST", .str u⟩ (some k) ⟨403, stext, d⟩ now).body =
      some "API quota exceeded or invalid API key" ∧
    (containsSub "API quota exceeded or invalid API key" "quota" = true ∨
     containsSub "API quota exceeded or invalid API key" "invalid API key" = true) := by
  rw [handler_fetch u vid k _ now hext hk, getVideoMetadata_403]
  exact ⟨rfl, rfl, Or.inl (by decide)⟩

/-- Witness for `C5_quota_auth`. -/
theorem C5_quota_auth_witness :
    (handler ⟨"POST", .str "dQw4w9WgXcQ"⟩ (some "k") ⟨403, "F", ⟨none⟩⟩ "t").status = 500 ∧
    errorText (handler ⟨"POST", .str "dQw4w9WgXcQ"⟩ (some "k") ⟨403, "F", ⟨none⟩⟩ "t").body =
      some "API quota exceeded or invalid API key" ∧
    (containsSub "API quota exceeded or invalid API key" "quota" = true ∨
     containsSub "API quota exceeded or invalid API key" "invalid API key" = true) :=
  C5_quota_auth "dQw4w9WgXcQ" "dQw4w9WgXcQ" "k" "F" "t" ⟨none⟩ (by decide) (by decide)

/-! ## Claim C6 -/

/-- Claim C6: upstream 404 maps to a 500 with error text "Video not found";
an upstream success with an absent or empty `items` list maps to a 500 with
error text "Video not found or is private". -/
theorem C6_not_found (u vid k stext stext2 now : String) (d : UpstreamData)
    (items : Option (List VideoItem)) (hitems : items = none ∨ items = some [])
    (hext : extractVideoId u = some vid) (hk : k ≠ "") :
    ((handler ⟨"POST", .str u⟩ (some k) ⟨404, stext, d⟩ now).status = 500 ∧
     errorText (handler ⟨"POST", .str u⟩ (some k) ⟨404, stext, d⟩ now).body =
       some "Video not found") ∧
    ((handler ⟨"POST", .str u⟩ (some k) ⟨200, stext2, ⟨items⟩⟩ now).status = 500 ∧
     errorText (handler ⟨"POST", .str u⟩ (some k) ⟨200, stext2, ⟨items⟩⟩ now).body =
       some "Video not found or is private") := by
  constructor
  · rw [handler_fetch u vid k _ now hext hk, getVideoMetadata_404]
    exact ⟨rfl, rfl⟩
  · rw [handler_fetch u vid k _ now hext hk, getVideoMetadata_noItems _ _ hitems]
    exact ⟨rfl, rfl⟩

/-- Witness for `C6_not_found` with an absent `items` list. -/
theorem C6_not_found_witness :
    ((handler ⟨"POST", .str "dQw4w9WgXcQ"⟩ (some "k") ⟨404, "NF", ⟨none⟩⟩ "t").status = 500 ∧
     errorText (handler ⟨"POST", .str "dQw4w9WgXcQ"⟩ (some "k") ⟨404, "NF", ⟨none⟩⟩ "t").body =
       some "Video not found") ∧
    ((handler ⟨"POST", .str "dQw4w9WgXcQ"⟩ (some "k") ⟨200, "OK", ⟨none⟩⟩ "t").status = 500 ∧
     errorText (handler ⟨"POST", .str "dQw4w9WgXcQ"⟩ (some "k") ⟨200, "OK", ⟨none⟩⟩ "t").body =
       some "Video not found or is private") :=
  C6_not_found "dQw4w9WgXcQ" "dQw4w9WgXcQ" "k" "NF" "OK" "t" ⟨none⟩ none (Or.inl rfl)
    (by decide) (by decide)

/-! ## Claim C8 -/

/-- Claim C8: an OPTIONS request returns 200 with an empty body and the
fetcher is never invoked; any method other than OPTIONS and POST returns
405 with `{success: false, error: "Method not allowed. Use POST."}` and the
fetcher is never invoked either. -/
theorem C8_methods (m : String) (v : JsVal) (key : Option String)
    (up : UpstreamResponse) (now : String) :
    handler ⟨"OPTIONS", v⟩ key up now = ⟨200, .empty, false⟩ ∧
    (m ≠ "OPTIONS" → m ≠ "POST" → handler ⟨m, v⟩ key up now =
      ⟨405, errBody "Method not allowed. Use POST.", false⟩) := by
  constructor
  · simp [handler]
  · intro h1 h2
    simp [handler, h1, h2]

/-- Witness for `C8_methods` at the method `GET`. -/
theorem C8_methods_witness :
    handler ⟨"OPTIONS", .undef⟩ none ⟨200, "OK", ⟨none⟩⟩ "t" = ⟨200, .empty, false⟩ ∧
    handler ⟨"GET", .undef⟩ none ⟨200, "OK", ⟨none⟩⟩ "t" =
      ⟨405, errBody "Method not allowed. Use POST.", false⟩ :=
  ⟨(C8_methods "GET" .undef none ⟨200, "OK", ⟨none⟩⟩ "t").1,
   (C8_methods "GET" .undef none ⟨200, "OK", ⟨none⟩⟩ "t").2 (by decide) (by decide)⟩

/-! ## Claim C9 -/

/-- Claim C9: when the first upstream item lacks a `statistics` object, or
its snippet lacks a `thumbnails` object, the unguarded property accesses in
`getVideoMetadata` raise a `TypeError` instead of applying the documented
defaults, and the handler turns it into a 500. -/
theorem C9_unguarded (u vid k stext now : String) (v : VideoItem) (rest : List VideoItem)
    (hext : extractVideoId u = some vid) (hk : k ≠ "")
    (hbad : v.statistics = none ∨ ∃ sn, v.snippet = some sn ∧ sn.thumbnails = none) :
    (∃ msg, getVideoMetadata ⟨200, stext, ⟨some (v :: rest)⟩⟩ =
      .error (.typeError msg)) ∧
    (handler ⟨"POST", .str u⟩ (some k) ⟨200, stext, ⟨some (v :: rest)⟩⟩ now).status = 500 := by
  have herr : ∃ msg, getVideoMetadata ⟨200, stext, ⟨some (v :: rest)⟩⟩ =
      .error (.typeError msg) := by
    rcases hbad with hstat | ⟨sn, hsn, hth⟩
    · cases hsnip : v.snippet with
      | none =>
        exact ⟨"Cannot read properties of undefined (reading 'title')",
          by simp [getVideoMetadata, respOk, hsnip]⟩
      | some sn =>
        cases hth : sn.thumbnails with
        | none =>
          exact ⟨"Cannot read properties of undefined (reading 'high')",
            by simp [getVideoMetadata, respOk, hsnip, hth]⟩
        | some th =>
          cases hcd : v.contentDetails with
          | none =>
            exact ⟨"Cannot read properties of undefined (reading 'duration')",
              by simp [getVideoMetadata, respOk, hsnip, hth, hcd]⟩
          | some cd =>
            exact ⟨"Cannot read properties of undefined (reading 'viewCount')",
              by simp [getVideoMetadata, respOk, hsnip, hth, hcd, hstat]⟩
    · exact ⟨"Cannot read properties of undefined (reading 'high')",
        by simp [getVideoMetadata, respOk, hsn, hth]⟩
  refine ⟨herr, ?_⟩
  obtain ⟨msg, hmsg⟩ := herr
  rw [handler_fetch u vid k _ now hext hk, hmsg]

/-- Witness for `C9_unguarded`: first item with snippet and content details
but no `statistics` object. -/
theorem C9_unguarded_witness :
    (∃ msg, getVideoMetadata ⟨200, "OK", ⟨some
        [⟨some ⟨"t", "d", "ct", "ci", "pub", some ⟨none, none⟩, none⟩,
          some ⟨"PT1M"⟩, none⟩]⟩⟩ = .error (.typeError msg)) ∧
    (handler ⟨"POST", .str "dQw4w9WgXcQ"⟩ (some "k") ⟨200, "OK", ⟨some
        [⟨some ⟨"t", "d", "ct", "ci", "pub", some ⟨none, none⟩, none⟩,
          some ⟨"PT1M"⟩, none⟩]⟩⟩ "t").status = 500 :=
  C9_unguarded "dQw4w9WgXcQ" "dQw4w9WgXcQ" "k" "OK" "t"
    ⟨some ⟨"t", "d", "ct", "ci", "pub", some ⟨none, none⟩, none⟩, some ⟨"PT1M"⟩, none⟩
    [] (by decide) (by decide) (Or.inl rfl)

/-! ## Claim C10 -/

/-- Claim C10: a POST whose body carries any falsy `url` value (the empty
string, `null`, `false`, `0`, `NaN`, or the field absent entirely) is
answered 400 with error "URL parameter is required", identically to a body
with no `url` field. -/
theorem C10_falsy_url (v : JsVal) (key : Option String) (up : UpstreamResponse)
    (now : String) (hv : v.falsy = true) :
    handler ⟨"POST", v⟩ key up now =
      ⟨400, errBody "URL parameter is required", false⟩ ∧
    handler ⟨"POST", v⟩ key up now = handler ⟨"POST", .undef⟩ key up now := by
  have h1 : handler ⟨"POST", v⟩ key up now =
      ⟨400, errBody "URL parameter is required", false⟩ := by
    simp [handler, hv]
  have h2 : handler ⟨"POST", .undef⟩ key up now =
      ⟨400, errBody "URL parameter is required", false⟩ := by
    simp [handler, JsVal.falsy]
  exact ⟨h1, h1.trans h2.symm⟩

/-- Witness for `C10_falsy_url` at the empty-string URL. -/
theorem C10_falsy_url_witness :
    handler ⟨"POST", .str ""⟩ none ⟨200, "OK", ⟨none⟩⟩ "t" =
      ⟨400, errBody "URL parameter is required", false⟩ ∧
    handler ⟨"POST", .str ""⟩ none ⟨200, "OK", ⟨none⟩⟩ "t" =
      handler ⟨"POST", .undef⟩ none ⟨200, "OK", ⟨none⟩⟩ "t" :=
  C10_falsy_url (.str "") none ⟨200, "OK", ⟨none⟩⟩ "t" (by decide)

end YoutubeProxy
